import Mathlib

/-!
Verification development for the pact-go control plane: a shallow
embedding of the daemon RPC operations (`Daemon.VerifyProvider`,
`Daemon.StopServer`, `Daemon.Shutdown`), the client-side session
orchestrator (`Pact.Setup`, `Pact.Verify`), and the message-verification
bridge handler inside `Pact.VerifyProducer`, together with theorems about
their error handling and sequencing.

External collaborators (the mock-service HTTP client, the OS process
layer, port probing, JSON encoding/decoding) are parameters of the
embedding: each effectful step's outcome is an explicit input, and the
embedding records the sequence of externally visible steps it performs as
a trace of events, so ordering claims ("read stdout before stderr before
wait") are provable statements about the returned trace.
-/

/-! ## Data model (package `types`) -/

/-- Mirrors `types.MockServer`: the RPC handle for a mock-service
process, carrying pid, port, a status code and launch args. -/
structure MockServer where
  Pid : Int
  Port : Int
  Status : Int
  Args : List String
deriving DecidableEq, Repr

/-- Mirrors `types.Example.Exception`: the failure detail of one
verification example. -/
structure PactException where
  Message : String
deriving DecidableEq, Repr

/-- Mirrors `types.Example`: one per-scenario verification record. -/
structure Example where
  Description : String
  FullDescription : String
  Status : String
  Exception : PactException
deriving DecidableEq, Repr

/-- Mirrors `types.ProviderVerifierResponse`: the structured result the
verifier binary emits on stdout. -/
structure ProviderVerifierResponse where
  Examples : List Example
deriving DecidableEq, Repr

/-- Mirrors `types.Message`: the message envelope the bridge decodes from
a request body; the bridge only consults its `Description` field. -/
structure Message where
  Description : String
deriving DecidableEq, Repr

/-- Mirrors `types.VerifyRequest`: the fields `Daemon.VerifyProvider`
consults (contract locations, broker URL, and the derived argument
list). -/
structure VerifyRequest where
  PactURLs : List String
  BrokerURL : String
  ProviderBaseURL : String
  Args : List String
deriving DecidableEq, Repr

/-- Modelled from the spec: `types.VerifyRequest.Validate` is not among
the sources (only its caller `Daemon.VerifyProvider` is). Per the spec, a
verification request must carry one or more contract-file locations or a
broker URL to resolve them from; a request with zero contract locations
and no broker URL fails validation. Returns `some` error on failure,
`none` on success, mirroring Go's `error` return. -/
def VerifyRequest.Validate (r : VerifyRequest) : Option String :=
  if r.PactURLs = [] ∧ r.BrokerURL = "" then
    some "PactURLs is mandatory if a BrokerURL is not specified"
  else
    none

/-! ## Daemon.VerifyProvider -/

/-- One externally visible step of a `Daemon.VerifyProvider` invocation,
in the order the Go code performs them: obtain a service handle from the
verification manager, build the command, attach the two pipes, start the
process, drain stdout, drain stderr, wait for exit, decode stdout. -/
inductive VPEvent where
  | newService (args : List String)
  | command
  | stdoutPipe
  | stderrPipe
  | start
  | readStdOut
  | readStdErr
  | wait
  | decode
deriving DecidableEq, Repr

/-- Outcomes of the effectful steps of one `Daemon.VerifyProvider`
invocation: pipe attachment, process start, the two stream drains, the
exit wait (an error for a non-zero exit), and the JSON decoder applied to
the drained stdout bytes. -/
structure VerifierEnv where
  stdoutPipeErr : Option String
  stderrPipeErr : Option String
  startErr : Option String
  stdOutRead : Except String String
  stdErrRead : Except String String
  waitErr : Option String
  decode : String → Except String ProviderVerifierResponse

/-- The composite diagnostic `Daemon.VerifyProvider` builds when stdout
does not decode: `fmt.Errorf("error verifying provider: %s\n\nSTDERR:\n%s\n\nSTDOUT:\n%s", err, stdErr, stdOut)`. -/
def verifyErrMsg (err stdErr stdOut : String) : String :=
  "error verifying provider: " ++ err ++ "\n\nSTDERR:\n" ++ stdErr ++
    "\n\nSTDOUT:\n" ++ stdOut

/-- Embedding of `Daemon.VerifyProvider` (daemon.go): validate the
request; obtain a service and its command; attach stdout and stderr
pipes; start; drain stdout then stderr; wait; decode stdout. A successful
decode is returned as the result with no error regardless of the wait
outcome; otherwise a composite error is built from the wait error (or,
when the process exited cleanly, the decode error) plus both captured
streams. Alongside the Go return value it returns the trace of performed
steps. -/
def Daemon.VerifyProvider (env : VerifierEnv) (request : VerifyRequest) :
    Except String ProviderVerifierResponse × List VPEvent :=
  match request.Validate with
  | some e => (Except.error e, [])
  | none =>
    let ev := [VPEvent.newService request.Args, VPEvent.command]
    match env.stdoutPipeErr with
    | some e => (Except.error e, ev ++ [VPEvent.stdoutPipe])
    | none =>
      let ev := ev ++ [VPEvent.stdoutPipe]
      match env.stderrPipeErr with
      | some e => (Except.error e, ev ++ [VPEvent.stderrPipe])
      | none =>
        let ev := ev ++ [VPEvent.stderrPipe]
        match env.startErr with
        | some e => (Except.error e, ev ++ [VPEvent.start])
        | none =>
          let ev := ev ++ [VPEvent.start]
          match env.stdOutRead with
          | Except.error e => (Except.error e, ev ++ [VPEvent.readStdOut])
          | Except.ok stdOut =>
            let ev := ev ++ [VPEvent.readStdOut]
            match env.stdErrRead with
            | Except.error e => (Except.error e, ev ++ [VPEvent.readStdErr])
            | Except.ok stdErr =>
              let ev := ev ++ [VPEvent.readStdErr, VPEvent.wait, VPEvent.decode]
              match env.decode stdOut with
              | Except.ok r => (Except.ok r, ev)
              | Except.error dErr =>
                let err := env.waitErr.getD dErr
                (Except.error (verifyErrMsg err stdErr stdOut), ev)

/-- The canonical full step sequence of a `Daemon.VerifyProvider`
invocation that runs to the decode step. -/
def vpFullTrace (args : List String) : List VPEvent :=
  [VPEvent.newService args, VPEvent.command, VPEvent.stdoutPipe,
   VPEvent.stderrPipe, VPEvent.start, VPEvent.readStdOut,
   VPEvent.readStdErr, VPEvent.wait, VPEvent.decode]

/-- Substring containment on strings, as infix containment of the
underlying character lists. -/
def strContains (s t : String) : Prop := t.data <:+: s.data

theorem strContains_of_eq_append (s a t b : String) (h : s = a ++ t ++ b) :
    strContains s t := by
  refine ⟨a.data, b.data, ?_⟩
  subst h
  simp [strContains, String.data_append]

/-- C1: for a daemon `VerifyProvider` invocation whose request passes
validation and whose pipes, start and stream drains succeed: if the
captured stdout decodes as a structured verification result, that result
is returned with no error, whatever the wait outcome (non-zero exit
included); if decoding fails, the returned error text contains the
process-exit error when one occurred (otherwise the decode error), the
full captured stderr text, and the full captured stdout text. -/
theorem daemon_verifyProvider_decode_result (env : VerifierEnv)
    (request : VerifyRequest) (stdOut stdErr : String)
    (hv : request.Validate = none)
    (h1 : env.stdoutPipeErr = none) (h2 : env.stderrPipeErr = none)
    (h3 : env.startErr = none)
    (h4 : env.stdOutRead = Except.ok stdOut)
    (h5 : env.stdErrRead = Except.ok stdErr) :
    (∀ r, env.decode stdOut = Except.ok r →
      Daemon.VerifyProvider env request =
        (Except.ok r, vpFullTrace request.Args)) ∧
    (∀ d, env.decode stdOut = Except.error d →
      (Daemon.VerifyProvider env request).1 =
        Except.error (verifyErrMsg (env.waitErr.getD d) stdErr stdOut) ∧
      strContains (verifyErrMsg (env.waitErr.getD d) stdErr stdOut)
        (env.waitErr.getD d) ∧
      strContains (verifyErrMsg (env.waitErr.getD d) stdErr stdOut) stdErr ∧
      strContains (verifyErrMsg (env.waitErr.getD d) stdErr stdOut) stdOut) := by
  constructor
  · intro r hr
    simp [Daemon.VerifyProvider, hv, h1, h2, h3, h4, h5, hr, vpFullTrace]
  · intro d hd
    refine ⟨by simp [Daemon.VerifyProvider, hv, h1, h2, h3, h4, h5, hd], ?_, ?_, ?_⟩
    · exact strContains_of_eq_append _ "error verifying provider: " _
        ("\n\nSTDERR:\n" ++ stdErr ++ "\n\nSTDOUT:\n" ++ stdOut)
        (by simp [verifyErrMsg, String.ext_iff, String.data_append])
    · exact strContains_of_eq_append _
        ("error verifying provider: " ++ env.waitErr.getD d ++ "\n\nSTDERR:\n") _
        ("\n\nSTDOUT:\n" ++ stdOut)
        (by simp [verifyErrMsg, String.ext_iff, String.data_append])
    · exact strContains_of_eq_append _
        ("error verifying provider: " ++ env.waitErr.getD d ++ "\n\nSTDERR:\n" ++
          stdErr ++ "\n\nSTDOUT:\n") _ ""
        (by simp [verifyErrMsg, String.ext_iff, String.data_append])

/-- A concrete environment whose spawned verifier emits undecodable
stdout and exits non-zero. -/
def envDecodeFail : VerifierEnv where
  stdoutPipeErr := none
  stderrPipeErr := none
  startErr := none
  stdOutRead := Except.ok "not json"
  stdErrRead := Except.ok "boom"
  waitErr := some "exit status 1"
  decode := fun _ => Except.error "invalid character"

/-- A concrete environment whose spawned verifier emits decodable stdout
yet exits non-zero. -/
def envDecodeOk : VerifierEnv where
  stdoutPipeErr := none
  stderrPipeErr := none
  startErr := none
  stdOutRead := Except.ok "structured-result"
  stdErrRead := Except.ok ""
  waitErr := some "exit status 1"
  decode := fun _ => Except.ok { Examples := [] }

/-- A concrete verification request that passes validation. -/
def reqValid : VerifyRequest where
  PactURLs := ["foo.json"]
  BrokerURL := ""
  ProviderBaseURL := "http://localhost:8080"
  Args := ["--provider-base-url", "http://localhost:8080"]

theorem daemon_verifyProvider_decode_result_witness :
    (Daemon.VerifyProvider envDecodeOk reqValid).1 =
      Except.ok { Examples := [] } ∧
    (Daemon.VerifyProvider envDecodeFail reqValid).1 =
      Except.error (verifyErrMsg "exit status 1" "boom" "not json") := by
  constructor
  · have h := daemon_verifyProvider_decode_result envDecodeOk reqValid
      "structured-result" "" rfl rfl rfl rfl rfl rfl
    have := h.1 { Examples := [] } rfl
    simp [this]
  · have h := daemon_verifyProvider_decode_result envDecodeFail reqValid
      "not json" "boom" rfl rfl rfl rfl rfl rfl
    exact (h.2 "invalid character" rfl).1

/-- C2: a verification request that fails validation makes the daemon's
`VerifyProvider` return the validation error immediately, with an empty
trace: no service handle is constructed and no verifier process is
spawned, and the daemon's state is untouched. -/
theorem daemon_verifyProvider_validation_fails_fast (env : VerifierEnv)
    (request : VerifyRequest) (e : String)
    (h : request.Validate = some e) :
    Daemon.VerifyProvider env request = (Except.error e, []) := by
  simp [Daemon.VerifyProvider, h]

/-- A concrete verification request with zero contract-file locations and
no broker URL. -/
def reqNoPacts : VerifyRequest where
  PactURLs := []
  BrokerURL := ""
  ProviderBaseURL := "http://localhost:8080"
  Args := []

theorem daemon_verifyProvider_validation_fails_fast_witness :
    Daemon.VerifyProvider envDecodeOk reqNoPacts =
      (Except.error "PactURLs is mandatory if a BrokerURL is not specified",
       []) :=
  daemon_verifyProvider_validation_fails_fast envDecodeOk reqNoPacts _ rfl

/-- C3: every `Daemon.VerifyProvider` trace is a prefix of the canonical
step sequence: the stdout stream is drained to end-of-stream first, then
the stderr stream, and only after both drains does the wait on the
process occur, with the decode of stdout strictly after the wait. -/
theorem daemon_verifyProvider_trace_ordered (env : VerifierEnv)
    (request : VerifyRequest) :
    (Daemon.VerifyProvider env request).2 <+: vpFullTrace request.Args := by
  unfold Daemon.VerifyProvider vpFullTrace
  cases hv : request.Validate
  case some e => simp
  case none =>
  cases h1 : env.stdoutPipeErr
  case some e =>
    exact ⟨[VPEvent.stderrPipe, VPEvent.start, VPEvent.readStdOut,
      VPEvent.readStdErr, VPEvent.wait, VPEvent.decode], by simp⟩
  case none =>
  cases h2 : env.stderrPipeErr
  case some e =>
    exact ⟨[VPEvent.start, VPEvent.readStdOut, VPEvent.readStdErr,
      VPEvent.wait, VPEvent.decode], by simp⟩
  case none =>
  cases h3 : env.startErr
  case some e =>
    exact ⟨[VPEvent.readStdOut, VPEvent.readStdErr, VPEvent.wait,
      VPEvent.decode], by simp⟩
  case none =>
  cases h4 : env.stdOutRead
  case error e =>
    exact ⟨[VPEvent.readStdErr, VPEvent.wait, VPEvent.decode], by simp⟩
  case ok stdOut =>
  cases h5 : env.stdErrRead
  case error e => exact ⟨[VPEvent.wait, VPEvent.decode], by simp⟩
  case ok stdErr =>
  cases h6 : env.decode stdOut
  case error d => exact ⟨[], by simp [h6]⟩
  case ok r => exact ⟨[], by simp [h6]⟩

/-! ## Daemon.StopServer and Daemon.Shutdown -/

/-- Embedding of `Daemon.StopServer` (daemon.go): ask the mock-service
manager to stop the pid named by the request handle; set the handle's
status to 0 when the manager reports `success == true && err == nil` and
to 1 otherwise; return the handle through `reply` and return `nil` as the
RPC error. The manager's `Stop` is the parameter `stop`, a function from
pid to its `(success, error)` pair. -/
def Daemon.StopServer (stop : Int → Bool × Option String)
    (request : MockServer) : MockServer × Option String :=
  let res := stop request.Pid
  let request :=
    if res.1 = true ∧ res.2 = none then { request with Status := 0 }
    else { request with Status := 1 }
  (request, none)

/-- C4: every `StopServer` call — untracked pids and repeated calls on
the same pid included — returns no RPC error; the returned handle is the
request handle (pid, port and args preserved) with status 0 exactly when
the manager's `Stop` reports success with no error, and status 1
otherwise. -/
theorem daemon_stopServer_status (stop : Int → Bool × Option String)
    (request : MockServer) :
    (Daemon.StopServer stop request).2 = none ∧
    (Daemon.StopServer stop request).1.Pid = request.Pid ∧
    (Daemon.StopServer stop request).1.Port = request.Port ∧
    (Daemon.StopServer stop request).1.Args = request.Args ∧
    ((Daemon.StopServer stop request).1.Status = 0 ↔
      ((stop request.Pid).1 = true ∧ (stop request.Pid).2 = none)) ∧
    ((Daemon.StopServer stop request).1.Status = 1 ↔
      ¬((stop request.Pid).1 = true ∧ (stop request.Pid).2 = none)) := by
  unfold Daemon.StopServer
  by_cases h : (stop request.Pid).1 = true ∧ (stop request.Pid).2 = none
  · simp [h]
  · simp [h]

/-- Mirrors `os.Process` as used by the daemon: the stop path only reads
its pid. -/
structure OsProcess where
  Pid : Int
deriving DecidableEq, Repr

/-- Mirrors the `exec.Cmd` values the verification manager's `List()`
yields: the shutdown loop only dereferences `s.Process.Pid`. -/
structure ManagedProcess where
  Process : OsProcess
deriving DecidableEq, Repr

/-- A stop request routed to one of the daemon's three service managers,
identifying the manager and the pid passed to its `Stop`. -/
inductive StopCall where
  | mock (pid : Int)
  | verification (pid : Int)
  | message (pid : Int)
deriving DecidableEq, Repr

/-- Embedding of `Daemon.Shutdown` (daemon.go): iterate the verification
manager's `List()`; for every non-nil entry `s`, call the mock-service
manager's `Stop(s.Process.Pid)`. The input is the listed entries (nil
entries as `none`); the output is the sequence of stop calls issued. -/
def Daemon.Shutdown : List (Option ManagedProcess) → List StopCall
  | [] => []
  | none :: rest => Daemon.Shutdown rest
  | some s :: rest => StopCall.mock s.Process.Pid :: Daemon.Shutdown rest

/-- C7: on daemon shutdown, every non-nil process in the verification
manager's list gets a mock-service-manager stop call with its pid, and
every stop call issued goes through the mock-service manager — none
through the verification or message managers. -/
theorem daemon_shutdown_stops_via_mock_manager
    (l : List (Option ManagedProcess)) :
    (∀ s : ManagedProcess, some s ∈ l →
      StopCall.mock s.Process.Pid ∈ Daemon.Shutdown l) ∧
    (∀ c ∈ Daemon.Shutdown l, ∃ pid, c = StopCall.mock pid) := by
  induction l with
  | nil => simp [Daemon.Shutdown]
  | cons hd tl ih =>
    cases hd with
    | none =>
      refine ⟨?_, ?_⟩
      · intro s hs
        rw [List.mem_cons] at hs
        rcases hs with hs | hs
        · exact absurd hs (by simp)
        · exact ih.1 s hs
      · intro c hc
        exact ih.2 c hc
    | some s0 =>
      refine ⟨?_, ?_⟩
      · intro s hs
        rw [List.mem_cons] at hs
        rcases hs with hs | hs
        · injection hs with hs
          subst hs
          exact List.mem_cons_self _ _
        · exact List.mem_cons_of_mem _ (ih.1 s hs)
      · intro c hc
        rw [show Daemon.Shutdown (some s0 :: tl) =
              StopCall.mock s0.Process.Pid :: Daemon.Shutdown tl from rfl,
            List.mem_cons] at hc
        rcases hc with hc | hc
        · exact ⟨s0.Process.Pid, hc⟩
        · exact ih.2 c hc

theorem daemon_shutdown_stops_via_mock_manager_witness :
    StopCall.mock 41 ∈
      Daemon.Shutdown [some ⟨⟨7⟩⟩, none, some ⟨⟨41⟩⟩] :=
  (daemon_shutdown_stops_via_mock_manager
    [some ⟨⟨7⟩⟩, none, some ⟨⟨41⟩⟩]).1 ⟨⟨41⟩⟩ (by simp)

/-! ## Session orchestrator (package `dsl`, pact.go) -/

/-- Mirrors `dsl.Interaction` as the session holds it: an entry of the
session's interaction list (its builder fields are opaque to the
orchestrator; the list only stores and clears entries). -/
structure Interaction where
  Description : String
deriving DecidableEq, Repr

/-- Mirrors `dsl.PactClient` as constructed by `Pact.Setup`. -/
structure PactClient where
  Port : Int
  Network : String
  Address : String
deriving DecidableEq, Repr

/-- Mirrors `dsl.Pact`: the session configuration and state. The
`logFilter` field models the configured level filter by its minimum
level (`none` when logging is not yet configured). -/
structure Pact where
  Server : Option MockServer
  Port : Int
  pactClient : Option PactClient
  Consumer : String
  Provider : String
  Interactions : List Interaction
  LogLevel : String
  logFilter : Option String
  LogDir : String
  PactDir : String
  PactFileWriteMode : String
  SpecificationVersion : Int
  Host : String
  Network : String
  AllowedMockServerPorts : String
deriving DecidableEq, Repr

/-- Outcomes of the effectful steps of `Pact.Setup`: the working
directory, the port probe's `(port, error)` pair (from
`utils.FindPortInRange` or `utils.GetFreePort`), and the daemon client's
`StartServer`. -/
structure SetupEnv where
  dir : String
  portProbe : Int × Option String
  startServerFn : List String → Int → MockServer

/-- Externally visible steps of `Pact.Setup`: the free-port probe
(tagged with whether it went through the configured port range) and the
launch request sent to the daemon's `StartServer`. -/
inductive SetupEvent where
  | probedPort (fromRange : Bool)
  | launchedServer (args : List String) (port : Int)
deriving DecidableEq, Repr

/-- Model of Go's `filepath.Join` on two components as `Pact.Setup` uses
it (Unix path semantics). -/
def joinPath (a b : String) : String := a ++ "/" ++ b

/-- Model of Go's `filepath.FromSlash`, the identity on Unix. -/
def fromSlash (s : String) : String := s

/-- Embedding of `Pact.setupLogging` (pact.go): when no level filter is
configured yet, default `LogLevel` to "INFO" if empty and install a
filter at that level; otherwise leave everything alone. -/
def Pact.setupLogging (p : Pact) : Pact :=
  let lvl := if p.logFilter = none then
      (if p.LogLevel = "" then "INFO" else p.LogLevel)
    else p.LogLevel
  let filt := if p.logFilter = none then some lvl else p.logFilter
  { p with LogLevel := lvl, logFilter := filt }

/-- The default-filling prefix of `Pact.Setup` (pact.go): default
`Network` to "tcp", `Host` to "localhost", `LogDir` and `PactDir` to
directories under the working directory, `SpecificationVersion` to 2,
and build the daemon client from the (already defaulted) port, network
and host when absent. -/
def Pact.applyDefaults (dir : String) (p : Pact) : Pact :=
  let network := if p.Network = "" then "tcp" else p.Network
  let host := if p.Host = "" then "localhost" else p.Host
  let logDir := if p.LogDir = "" then joinPath dir "logs" else p.LogDir
  let pactDir := if p.PactDir = "" then joinPath dir "pacts" else p.PactDir
  let specVersion :=
    if p.SpecificationVersion = 0 then 2 else p.SpecificationVersion
  let client :=
    if p.pactClient = none then
      some { Port := p.Port, Network := network, Address := host }
    else p.pactClient
  { p with
    Network := network
    Host := host
    LogDir := logDir
    PactDir := pactDir
    SpecificationVersion := specVersion
    pactClient := client }

/-- The mock-service launch argument list `Pact.Setup` builds. -/
def Pact.mockServiceArgs (p : Pact) : List String :=
  ["--pact-specification-version", toString p.SpecificationVersion,
   "--pact-dir", fromSlash p.PactDir,
   "--log", fromSlash (p.LogDir ++ "/" ++ "pact.log"),
   "--consumer", p.Consumer,
   "--provider", p.Provider]

/-- Embedding of `Pact.Setup` (pact.go): configure logging, fill
defaults, probe for a free local port (unconditionally; a probe error is
only logged), and, when no server reference exists and
`startMockServer` is true, ask the daemon client to start a mock service
with the built argument list and the probed port, storing the returned
handle. Returns the updated session and the trace of performed steps. -/
def Pact.Setup (env : SetupEnv) (startMockServer : Bool) (p : Pact) :
    Pact × List SetupEvent :=
  let p := p.setupLogging
  let p := p.applyDefaults env.dir
  let port := env.portProbe.1
  let events := [SetupEvent.probedPort (decide (p.AllowedMockServerPorts ≠ ""))]
  if p.Server = none ∧ startMockServer = true then
    ({ p with Server := some (env.startServerFn p.mockServiceArgs port) },
     events ++ [SetupEvent.launchedServer p.mockServiceArgs port])
  else
    (p, events)

theorem pact_setupLogging_server (p : Pact) :
    p.setupLogging.Server = p.Server := rfl

theorem pact_applyDefaults_server (p : Pact) (d : String) :
    (p.applyDefaults d).Server = p.Server := rfl

theorem pact_setup_interactions (env : SetupEnv) (b : Bool) (p : Pact) :
    (Pact.Setup env b p).1.Interactions = p.Interactions := by
  unfold Pact.Setup
  dsimp only
  split
  · rfl
  · rfl

/-- C6: when a session already holds a server reference, `Setup(true)`
keeps that reference unchanged and never asks the daemon to start a new
mock-service process, so a session holds at most one active mock-service
reference; a launch event can occur only when the reference was nil. -/
theorem pact_setup_idempotent_server (env : SetupEnv) (p : Pact) :
    (∀ s, p.Server = some s →
      (Pact.Setup env true p).1.Server = some s ∧
      ∀ args port,
        SetupEvent.launchedServer args port ∉ (Pact.Setup env true p).2) ∧
    (∀ args port,
      SetupEvent.launchedServer args port ∈ (Pact.Setup env true p).2 →
      p.Server = none) := by
  have hS : ((p.setupLogging).applyDefaults env.dir).Server = p.Server := rfl
  constructor
  · intro s hs
    have hcond : ¬(((p.setupLogging).applyDefaults env.dir).Server = none ∧
        true = true) := by
      rw [hS, hs]; simp
    constructor
    · unfold Pact.Setup
      rw [if_neg hcond]
      rw [hS, hs]
    · intro args port
      unfold Pact.Setup
      rw [if_neg hcond]
      simp
  · intro args port hmem
    by_cases hcond : (((p.setupLogging).applyDefaults env.dir).Server = none ∧
        true = true)
    · rw [← hS]; exact hcond.1
    · unfold Pact.Setup at hmem
      rw [if_neg hcond] at hmem
      simp at hmem

/-- C10: `Setup` is total and returns the updated session for both
argument values (its type admits no failure); a free-port probe step
occurs on every call, even when a server reference already exists; and
when the probe reports an error the error is only logged — if a launch
is due (nil server reference, `startServer = true`), the daemon's
`StartServer` is still invoked with the probe's unusable port value. -/
theorem pact_setup_always_probes_port (env : SetupEnv)
    (startMockServer : Bool) (p : Pact) :
    SetupEvent.probedPort (decide (p.AllowedMockServerPorts ≠ "")) ∈
      (Pact.Setup env startMockServer p).2 ∧
    (∀ v e, env.portProbe = (v, some e) → p.Server = none →
      startMockServer = true →
      SetupEvent.launchedServer
          ((p.setupLogging.applyDefaults env.dir).mockServiceArgs) v ∈
        (Pact.Setup env startMockServer p).2) := by
  have hA : ((p.setupLogging).applyDefaults env.dir).AllowedMockServerPorts =
      p.AllowedMockServerPorts := rfl
  constructor
  · unfold Pact.Setup
    dsimp only
    rw [hA]
    split
    · simp
    · simp
  · intro v e hp hserv hstart
    have hS : ((p.setupLogging).applyDefaults env.dir).Server = p.Server := rfl
    have hcond : ((p.setupLogging).applyDefaults env.dir).Server = none ∧
        startMockServer = true := ⟨hS.trans hserv, hstart⟩
    have hport : env.portProbe.1 = v := by rw [hp]
    unfold Pact.Setup
    dsimp only
    rw [if_pos hcond, hport]
    simp

/-- A session with every defaultable field blank, holding no server
reference and no daemon client yet. -/
def pactBase : Pact where
  Server := none
  Port := 6666
  pactClient := none
  Consumer := "billy"
  Provider := "bobby"
  Interactions := []
  LogLevel := ""
  logFilter := none
  LogDir := ""
  PactDir := ""
  PactFileWriteMode := ""
  SpecificationVersion := 0
  Host := ""
  Network := ""
  AllowedMockServerPorts := ""

/-- A concrete running mock-server handle. -/
def serverC : MockServer where
  Pid := 99
  Port := 1234
  Status := -1
  Args := []

/-- The base session already holding a server reference. -/
def pactWithServer : Pact := { pactBase with Server := some serverC }

/-- A concrete setup environment whose port probe succeeds. -/
def envSetup : SetupEnv where
  dir := "/work"
  portProbe := (1234, none)
  startServerFn := fun args port =>
    { Pid := 99, Port := port, Status := -1, Args := args }

/-- A concrete setup environment whose port probe fails, yielding the
zero port value alongside the error. -/
def envBadPort : SetupEnv :=
  { envSetup with portProbe := (0, some "no free port available") }

theorem pact_setup_idempotent_server_witness :
    (Pact.Setup envSetup true pactWithServer).1.Server = some serverC ∧
    SetupEvent.launchedServer [] 1234 ∉
      (Pact.Setup envSetup true pactWithServer).2 := by
  have h := (pact_setup_idempotent_server envSetup pactWithServer).1
    serverC rfl
  exact ⟨h.1, h.2 [] 1234⟩

theorem pact_setup_always_probes_port_witness :
    SetupEvent.probedPort false ∈ (Pact.Setup envBadPort true pactBase).2 ∧
    SetupEvent.launchedServer
        ((pactBase.setupLogging.applyDefaults envBadPort.dir).mockServiceArgs)
        0 ∈
      (Pact.Setup envBadPort true pactBase).2 := by
  have h := pact_setup_always_probes_port envBadPort true pactBase
  exact ⟨h.1, h.2 0 "no free port available" rfl rfl rfl⟩

/-- Outcomes of the mock service's HTTP operations as `Pact.Verify` uses
them (external collaborator): registering one interaction, verifying the
registered interactions, and deleting the interaction state; each yields
`some` error or `none`. -/
structure MockSvcBehavior where
  addInteraction : Interaction → Option String
  verify : Option String
  deleteInteractions : Option String

/-- Externally visible steps of a `Pact.Verify` call: one per attempted
interaction registration, the run of the caller-supplied test function,
the mock service's verification call, the reset of the session's
interaction list, and the mock service's interaction-state deletion. -/
inductive VerifyEvent where
  | addedInteraction
  | ranTest
  | msVerify
  | clearedInteractions
  | msDelete
deriving DecidableEq, Repr

/-- The interaction-registration loop of `Pact.Verify` (pact.go): call
the mock service's `AddInteraction` for each pending interaction in
order, returning the first error (stopping there) or `none`, together
with one event per attempted call. -/
def registerInteractions (ms : MockSvcBehavior) :
    List Interaction → Option String × List VerifyEvent
  | [] => (none, [])
  | i :: rest =>
    match ms.addInteraction i with
    | some e => (some e, [VerifyEvent.addedInteraction])
    | none =>
      let res := registerInteractions ms rest
      (res.1, VerifyEvent.addedInteraction :: res.2)

/-- Embedding of `Pact.Verify` (pact.go): ensure setup, register every
pending interaction (first error aborts before the test runs), run the
test function (its error is returned before any verification call), ask
the mock service to verify, and on success clear the session's
interaction list and then ask the mock service to delete its interaction
state, returning the deletion outcome. `testErr` is the test function's
result. Returns the updated session, the Go return value, and the trace
of performed steps. -/
def Pact.Verify (env : SetupEnv) (ms : MockSvcBehavior)
    (testErr : Option String) (p : Pact) :
    Pact × Option String × List VerifyEvent :=
  let p := (Pact.Setup env true p).1
  let reg := registerInteractions ms p.Interactions
  match reg.1 with
  | some e => (p, some e, reg.2)
  | none =>
    match testErr with
    | some e => (p, some e, reg.2 ++ [VerifyEvent.ranTest])
    | none =>
      match ms.verify with
      | some e => (p, some e, reg.2 ++ [VerifyEvent.ranTest, VerifyEvent.msVerify])
      | none =>
        ({ p with Interactions := [] }, ms.deleteInteractions,
         reg.2 ++ [VerifyEvent.ranTest, VerifyEvent.msVerify,
                   VerifyEvent.clearedInteractions, VerifyEvent.msDelete])

theorem registerInteractions_events (ms : MockSvcBehavior)
    (l : List Interaction) :
    ∀ ev ∈ (registerInteractions ms l).2, ev = VerifyEvent.addedInteraction := by
  induction l with
  | nil => simp [registerInteractions]
  | cons i rest ih =>
    cases h : ms.addInteraction i with
    | some e => simp [registerInteractions, h]
    | none =>
      intro ev hev
      rw [show (registerInteractions ms (i :: rest)).2 =
            VerifyEvent.addedInteraction ::
              (registerInteractions ms rest).2 by
            simp [registerInteractions, h],
          List.mem_cons] at hev
      rcases hev with hev | hev
      · exact hev
      · exact ih ev hev

theorem ranTest_not_mem_registerInteractions (ms : MockSvcBehavior)
    (l : List Interaction) :
    VerifyEvent.ranTest ∉ (registerInteractions ms l).2 := by
  intro h
  have := registerInteractions_events ms l _ h
  exact absurd this (by simp)

theorem msVerify_not_mem_registerInteractions (ms : MockSvcBehavior)
    (l : List Interaction) :
    VerifyEvent.msVerify ∉ (registerInteractions ms l).2 := by
  intro h
  have := registerInteractions_events ms l _ h
  exact absurd this (by simp)

/-- C5: in every `Verify(testFn)` call: a failed interaction
registration returns that error without running the test; a test-function
error is returned without asking the mock service to verify; when the
mock service's verification succeeds, the session's interaction list is
reset to empty and only then is the mock service asked to delete its
interaction state; and after every `Verify` returning no error the
interaction list is empty. -/
theorem pact_verify_sequencing (env : SetupEnv) (ms : MockSvcBehavior)
    (testErr : Option String) (p : Pact) :
    (∀ e, (registerInteractions ms p.Interactions).1 = some e →
      (Pact.Verify env ms testErr p).2.1 = some e ∧
      VerifyEvent.ranTest ∉ (Pact.Verify env ms testErr p).2.2) ∧
    ((registerInteractions ms p.Interactions).1 = none →
      ∀ e, testErr = some e →
      (Pact.Verify env ms testErr p).2.1 = some e ∧
      VerifyEvent.msVerify ∉ (Pact.Verify env ms testErr p).2.2) ∧
    ((registerInteractions ms p.Interactions).1 = none → testErr = none →
      ms.verify = none →
      (Pact.Verify env ms testErr p).1.Interactions = [] ∧
      (Pact.Verify env ms testErr p).2.1 = ms.deleteInteractions ∧
      (Pact.Verify env ms testErr p).2.2 =
        (registerInteractions ms p.Interactions).2 ++
          [VerifyEvent.ranTest, VerifyEvent.msVerify,
           VerifyEvent.clearedInteractions, VerifyEvent.msDelete]) ∧
    ((Pact.Verify env ms testErr p).2.1 = none →
      (Pact.Verify env ms testErr p).1.Interactions = []) := by
  have hI : (Pact.Setup env true p).1.Interactions = p.Interactions :=
    pact_setup_interactions env true p
  refine ⟨?_, ?_, ?_, ?_⟩
  · intro e he
    unfold Pact.Verify
    dsimp only
    rw [hI, he]
    exact ⟨rfl, ranTest_not_mem_registerInteractions ms p.Interactions⟩
  · intro hr e he
    unfold Pact.Verify
    dsimp only
    rw [hI, hr, he]
    refine ⟨rfl, ?_⟩
    rw [List.mem_append]
    rintro (h | h)
    · exact msVerify_not_mem_registerInteractions ms p.Interactions h
    · simp at h
  · intro hr ht hv
    unfold Pact.Verify
    dsimp only
    rw [hI, hr, ht, hv]
    exact ⟨rfl, rfl, rfl⟩
  · intro hnone
    unfold Pact.Verify at hnone ⊢
    dsimp only at hnone ⊢
    rw [hI] at hnone ⊢
    cases hr : (registerInteractions ms p.Interactions).1 with
    | some e =>
      rw [hr] at hnone
      exact Option.noConfusion hnone
    | none =>
      rw [hr] at hnone
      cases ht : testErr with
      | some e =>
        rw [ht] at hnone
        exact Option.noConfusion hnone
      | none =>
        rw [ht] at hnone
        cases hv : ms.verify with
        | some e =>
          rw [hv] at hnone
          exact Option.noConfusion hnone
        | none => rfl

/-- A mock-service behavior whose every operation succeeds. -/
def msOk : MockSvcBehavior where
  addInteraction := fun _ => none
  verify := none
  deleteInteractions := none

/-- The base session with one pending interaction. -/
def pactOneInteraction : Pact :=
  { pactBase with Interactions := [{ Description := "a login request" }] }

theorem pact_verify_sequencing_witness :
    (Pact.Verify envSetup msOk none pactOneInteraction).1.Interactions = [] ∧
    (Pact.Verify envSetup msOk none pactOneInteraction).2.1 = none ∧
    (Pact.Verify envSetup msOk none pactOneInteraction).2.2 =
      [VerifyEvent.addedInteraction, VerifyEvent.ranTest,
       VerifyEvent.msVerify, VerifyEvent.clearedInteractions,
       VerifyEvent.msDelete] := by
  have h := (pact_verify_sequencing envSetup msOk none
    pactOneInteraction).2.2.1 rfl rfl rfl
  refine ⟨h.1, ?_, ?_⟩
  · rw [h.2.1]
    rfl
  · rw [h.2.2]
    rfl

/-! ## Message-verification bridge (the handler inside Pact.VerifyProducer) -/

/-- Lookup in the caller-supplied handler mapping, mirroring the Go map
index `handlers[message.Description]`. -/
def lookupDescription {β : Type} : List (String × β) → String → Option β
  | [], _ => none
  | (k, v) :: rest, d => if k = d then some v else lookupDescription rest d

/-- The dispatch tail of the bridge handler, once the message envelope is
determined: look the description up in the handler mapping (status 404,
no body, when absent); a handler error yields status 503; a marshalling
error of the handler's result also yields 503; otherwise status 200 with
the marshalled body. `handlers` maps each description to its handler's
outcome and `marshal` is the JSON marshaller's outcome per result. -/
def dispatchMessage {α : Type} (handlers : List (String × Except String α))
    (marshal : α → Except String String) (d : String) :
    Nat × Option String :=
  match lookupDescription handlers d with
  | none => (404, none)
  | some (Except.error _) => (503, none)
  | some (Except.ok res) =>
    match marshal res with
    | Except.error _ => (503, none)
    | Except.ok resBody => (200, some resBody)

/-- Embedding of the HTTP handler closed over inside
`Pact.VerifyProducer` (pact.go): read the request body (a read failure
yields status 400 with no body); unmarshal it into a `Message`,
discarding any unmarshal error so an unparsable body leaves the
zero-valued message with empty description; then dispatch on the
message's description. `parse` is the unmarshaller's outcome per body
(`none` when the body is not valid JSON). Returns the response status
and optional response body. -/
def bridgeHandler {α : Type} (parse : String → Option Message)
    (handlers : List (String × Except String α))
    (marshal : α → Except String String)
    (readBody : Except String String) : Nat × Option String :=
  match readBody with
  | Except.error _ => (400, none)
  | Except.ok body =>
    let message := (parse body).getD { Description := "" }
    dispatchMessage handlers marshal message.Description

/-- C8: for every bridge request whose body reads and parses: an
unmapped description yields status 404 with no body; a handler error
yields status 503; a marshalling failure of the handler's result yields
503; otherwise status 200 with the handler's result marshalled as the
body. -/
theorem bridge_dispatch_statuses {α : Type} (parse : String → Option Message)
    (handlers : List (String × Except String α))
    (marshal : α → Except String String) (body : String) (msg : Message)
    (hp : parse body = some msg) :
    (lookupDescription handlers msg.Description = none →
      bridgeHandler parse handlers marshal (Except.ok body) = (404, none)) ∧
    (∀ e, lookupDescription handlers msg.Description =
        some (Except.error e) →
      bridgeHandler parse handlers marshal (Except.ok body) = (503, none)) ∧
    (∀ r e, lookupDescription handlers msg.Description =
        some (Except.ok r) → marshal r = Except.error e →
      bridgeHandler parse handlers marshal (Except.ok body) = (503, none)) ∧
    (∀ r b, lookupDescription handlers msg.Description =
        some (Except.ok r) → marshal r = Except.ok b →
      bridgeHandler parse handlers marshal (Except.ok body) =
        (200, some b)) := by
  refine ⟨?_, ?_, ?_, ?_⟩
  · intro hl
    simp [bridgeHandler, dispatchMessage, hp, hl]
  · intro e hl
    simp [bridgeHandler, dispatchMessage, hp, hl]
  · intro r e hl hm
    simp [bridgeHandler, dispatchMessage, hp, hl, hm]
  · intro r b hl hm
    simp [bridgeHandler, dispatchMessage, hp, hl, hm]

/-- A concrete body parser: one body carrying the mapped description,
one carrying an unmapped one. -/
def parseDemo : String → Option Message := fun b =>
  if b = "body-a" then some { Description := "a test message" }
  else if b = "body-b" then some { Description := "an unmapped message" }
  else none

/-- A concrete handler mapping with the single description
"a test message" whose handler succeeds. -/
def handlersDemo : List (String × Except String String) :=
  [("a test message", Except.ok "hello-payload")]

theorem bridge_dispatch_statuses_witness :
    bridgeHandler parseDemo handlersDemo Except.ok (Except.ok "body-a") =
      (200, some "hello-payload") ∧
    bridgeHandler parseDemo handlersDemo Except.ok (Except.ok "body-b") =
      (404, none) := by
  constructor
  · have h := bridge_dispatch_statuses parseDemo handlersDemo Except.ok
      "body-a" { Description := "a test message" } rfl
    exact h.2.2.2 "hello-payload" "hello-payload" rfl rfl
  · have h := bridge_dispatch_statuses parseDemo handlersDemo Except.ok
      "body-b" { Description := "an unmapped message" } rfl
    exact h.1 rfl

theorem dispatchMessage_status_ne_400 {α : Type}
    (handlers : List (String × Except String α))
    (marshal : α → Except String String) (d : String) :
    (dispatchMessage handlers marshal d).1 ≠ 400 := by
  unfold dispatchMessage
  cases hl : lookupDescription handlers d with
  | none => simp
  | some r =>
    cases r with
    | error e => simp
    | ok res =>
      cases hm : marshal res with
      | error e => simp [hm]
      | ok b => simp [hm]

/-- C9: a bridge request whose body reads but is not valid JSON is
answered exactly as a request carrying the empty-string description: the
decode error is discarded, processing continues with the zero-valued
message, yielding 404 whenever no handler is mapped to the empty string
and never a parse-error response; status 400 arises exactly when reading
the request body itself fails. -/
theorem bridge_invalid_json_zero_message {α : Type}
    (parse : String → Option Message)
    (handlers : List (String × Except String α))
    (marshal : α → Except String String) (body : String)
    (hp : parse body = none) :
    bridgeHandler parse handlers marshal (Except.ok body) =
      dispatchMessage handlers marshal "" ∧
    (lookupDescription handlers "" = none →
      bridgeHandler parse handlers marshal (Except.ok body) = (404, none)) ∧
    (∀ rb, (bridgeHandler parse handlers marshal rb).1 = 400 ↔
      ∃ e, rb = Except.error e) := by
  refine ⟨?_, ?_, ?_⟩
  · simp [bridgeHandler, hp]
  · intro hl
    simp [bridgeHandler, dispatchMessage, hp, hl]
  · intro rb
    cases rb with
    | error e => simp [bridgeHandler]
    | ok b =>
      simp only [bridgeHandler]
      constructor
      · intro h400
        exact absurd h400 (dispatchMessage_status_ne_400 handlers marshal _)
      · rintro ⟨e, he⟩
        exact Except.noConfusion he

theorem bridge_invalid_json_zero_message_witness :
    bridgeHandler (fun _ => none)
        ([] : List (String × Except String String)) Except.ok
        (Except.ok "not-json") = (404, none) ∧
    (bridgeHandler (fun _ => none)
        ([] : List (String × Except String String)) Except.ok
        (Except.error "read failed")).1 = 400 := by
  have h := bridge_invalid_json_zero_message (fun _ => none)
    ([] : List (String × Except String String)) Except.ok "not-json" rfl
  exact ⟨h.2.1 rfl,
    (h.2.2 (Except.error "read failed")).mpr ⟨"read failed", rfl⟩⟩
